import Mathlib

/-!
Verification of the toutago-datamapper orchestration engine.

This file gives a shallow embedding of the core of the repository:
the reflection-based property mapper (`engine/property.go`), the adapter
registry (`engine/registry.go`), the orchestration engine verbs
(`engine/mapper.go`) and the configuration parser lookup
(`config/parser.go`), together with theorems settling the specification
claims about them.

Modelling conventions:
 - Go dynamic (`interface\x7b\x7d`) values are restricted to a closed universe
   `GoVal` of strings, 64-bit-style integers (as `Int`; no claim depends on
   overflow), booleans, time instants and single-level pointers; struct
   fields are modelled as association lists of named, typed slots with
   exported (settable) fields, since the property mapper panics on
   unexported fields and the configuration invariant requires accessible
   fields.
 - Go maps keyed by strings are association lists with overwrite-on-insert
   (`sinsert`); iteration order of maps is never relevant to the claims.
 - Go errors are the inductive `GoError`; the constructor `GoError.wrap`
   models `fmt.Errorf` with a `%w` verb, and `GoError.errNotFound` models
   the sentinel `adapter.ErrNotFound`.
 - The Go standard library boundary used by the mapper (`time.Parse`,
   `time.Format`, `encoding/json`) is abstracted as a `GoStdlib` structure
   that the embedded definitions take as a parameter; every theorem holds
   for an arbitrary `GoStdlib`.
-/

namespace Datamapper

/-! ## String-keyed maps (Go `map[string]T`) -/

/-- Lookup in a Go string-keyed map modelled as an association list. -/
def slookup {α : Type} : List (String × α) → String → Option α
  | [], _ => none
  | kv :: rest, k => if kv.1 = k then some kv.2 else slookup rest k

/-- Assignment `m[k] = v` in a Go string-keyed map: overwrite the existing
binding or append a new one. -/
def sinsert {α : Type} : List (String × α) → String → α → List (String × α)
  | [], k, v => [(k, v)]
  | kv :: rest, k, v => if kv.1 = k then (k, v) :: rest else kv :: sinsert rest k v

theorem slookup_sinsert_self {α : Type} (l : List (String × α)) (k : String) (v : α) :
    slookup (sinsert l k v) k = some v := by
  induction l with
  | nil => simp [sinsert, slookup]
  | cons kv rest ih =>
    by_cases h : kv.1 = k
    · simp [sinsert, slookup, h]
    · simp [sinsert, slookup, h, ih]

theorem slookup_sinsert_ne {α : Type} (l : List (String × α)) (k k2 : String) (v : α)
    (h : k ≠ k2) : slookup (sinsert l k v) k2 = slookup l k2 := by
  induction l with
  | nil => simp [sinsert, slookup, h]
  | cons kv rest ih =>
    by_cases hk : kv.1 = k
    · simp [sinsert, slookup, hk, h]
    · simp only [sinsert, if_neg hk]
      by_cases hk2 : kv.1 = k2
      · simp [slookup, hk2]
      · simp [slookup, hk2, ih]

/-! ## The Go value universe -/

/-- Base (non-pointer) field types appearing in mapped domain objects. -/
inductive GoBase
  | bStr
  | bInt
  | bBool
  | bTime
deriving DecidableEq

/-- Runtime values of base type: `string`, `int64`, `bool`, `time.Time`
(an instant as seconds and nanoseconds since the epoch). -/
inductive GoPrim
  | pStr (s : String)
  | pInt (n : Int)
  | pBool (b : Bool)
  | pTime (sec : Int) (nsec : Int)
deriving DecidableEq

/-- The dynamic type of a base value. -/
def GoPrim.ty : GoPrim → GoBase
  | .pStr _ => .bStr
  | .pInt _ => .bInt
  | .pBool _ => .bBool
  | .pTime _ _ => .bTime

/-- Static types of struct fields: a base type or a single-level pointer. -/
inductive GoTy
  | base (b : GoBase)
  | ptr (b : GoBase)
deriving DecidableEq

/-- Dynamic (`interface\x7b\x7d`) values exchanged through records: a base value, a
typed pointer value (possibly a typed nil pointer), or the untyped nil
interface. -/
inductive GoVal
  | prim (p : GoPrim)
  | ptrV (b : GoBase) (v : Option GoPrim)
  | vNull
deriving DecidableEq

/-- Go zero value of a base type. -/
def GoBase.zero : GoBase → GoPrim
  | .bStr => .pStr ""
  | .bInt => .pInt 0
  | .bBool => .pBool false
  | .bTime => .pTime 0 0

/-- Go zero value of a field type (`reflect.Zero`). -/
def GoTy.zero : GoTy → GoVal
  | .base b => .prim b.zero
  | .ptr b => .ptrV b none

/-- Well-typedness of a field slot: the stored value fits the declared type
(the target of a pointer, when present, has the pointed-to base type). -/
def wellTypedVal : GoTy → GoVal → Bool
  | .base b, .prim p => p.ty = b
  | .ptr b, .ptrV b2 none => b = b2
  | .ptr b, .ptrV b2 (some p) => b = b2 ∧ p.ty = b
  | _, _ => false

/-- One struct field: its (exported) name, declared type and current value. -/
structure GoField where
  name : String
  ty : GoTy
  val : GoVal
deriving DecidableEq

/-- A domain struct value is its ordered list of fields (names unique). -/
abbrev GoStruct := List GoField

/-- A record (`map[string]interface\x7b\x7d`) exchanged with adapters. -/
abbrev RecordT := List (String × GoVal)

/-- Embedding of `reflect.Value.FieldByName`: the first field with the name. -/
def fieldByName (s : GoStruct) (n : String) : Option GoField :=
  s.find? (fun f => f.name = n)

/-- Setting the named field of a struct value. -/
def setField (s : GoStruct) (n : String) (v : GoVal) : GoStruct :=
  s.map (fun f => if f.name = n then { f with val := v } else f)

/-- A struct is well typed when every field value fits its declared type. -/
def wellTypedStruct (s : GoStruct) : Bool :=
  s.all (fun f => wellTypedVal f.ty f.val)

/-- Field names of a struct are pairwise distinct (Go guarantees this). -/
def uniqueNames (s : GoStruct) : Prop :=
  (s.map GoField.name).Nodup

/-- The struct of the same shape with every field at its zero value
(`newZeroOf` in the specification). -/
def zeroOf (s : GoStruct) : GoStruct :=
  s.map (fun f => { f with val := f.ty.zero })

/-! ## Go errors -/

/-- Go error values as produced by the engine. `errNotFound` models the
sentinel `adapter.ErrNotFound`; `wrap` models `fmt.Errorf` with a trailing
`%w` verb (message prefix plus wrapped cause); `msg` models `fmt.Errorf`
and `errors.New` without a wrapped cause. -/
inductive GoError
  | errNotFound
  | msg (s : String)
  | wrap (s : String) (cause : GoError)
deriving DecidableEq

/-- Modelled from the spec: the sentinel `adapter.ErrNotFound` of the
`adapter` package, whose source file is not under src (only its tests and
callers are); per the spec a zero-result fetch is communicated through
this first-class NotFound value. -/
def ErrNotFound : GoError := .errNotFound

/-- Embedding of `errors.Is` for the modelled error shapes: an error
matches a target when it equals it or some error in its unwrap chain does. -/
def errorsIs : GoError → GoError → Bool
  | e, target =>
    if e = target then true
    else match e with
      | .wrap _ cause => errorsIs cause target
      | _ => false

/-! ## Configuration model (`config/schema.go`) -/

/-- Field Mapping `config.PropertyMap`. The Go field `Type` is rendered
`TypeHint` because `Type` is reserved in Lean. -/
structure PropertyMap where
  Object : String
  Field : String
  TypeHint : String
  Generated : Bool
deriving DecidableEq

/-- Source connection descriptor `config.Source`. -/
structure Source where
  Adapter : String
  Connection : String
  Options : RecordT
deriving DecidableEq

/-- Fallback chain entry `config.SourceRef`. -/
structure SourceRef where
  Name : String
  OnMiss : String
  OnError : String
deriving DecidableEq

/-- Result descriptor `config.ResultConfig`; the Go field `Type` is
rendered `TypeName`. -/
structure ResultConfig where
  TypeName : String
  Multi : Bool
  Properties : List PropertyMap
deriving DecidableEq

/-- After-action hook `config.AfterActionConfig` (the `Config` map is not
consulted by the embedded code paths and is omitted). -/
structure AfterActionConfig where
  Action : String
  Source : String
  Statement : String
deriving DecidableEq

/-- Per-verb configuration `config.OperationConfig` (the recursive,
engine-unused `Fallback` field is omitted). -/
structure OperationConfig where
  Source : String
  Sources : List SourceRef
  Statement : String
  Parameters : List PropertyMap
  Properties : List PropertyMap
  Identifier : List PropertyMap
  Generated : List PropertyMap
  Condition : List PropertyMap
  Result : Option ResultConfig
  Bulk : Bool
  After : List AfterActionConfig
deriving DecidableEq

/-- Custom action configuration `config.ActionConfig`. -/
structure ActionConfig where
  Source : String
  Statement : String
  Parameters : List PropertyMap
  Result : Option ResultConfig
deriving DecidableEq

/-- Mapping of one domain object `config.Mapping`. -/
structure Mapping where
  Object : String
  Source : String
  Operations : List (String × OperationConfig)
  Actions : List (String × ActionConfig)
deriving DecidableEq

/-- Root configuration `config.Config`. -/
structure Config where
  Namespace : String
  Version : String
  Sources : List (String × Source)
  Mappings : List (String × Mapping)
deriving DecidableEq

/-! ## Go standard library boundary

The property mapper calls `time.Parse`, `time.Time.Format` and
`encoding/json`. Those are outside the repository; the embedding is
parameterized over their behavior. -/

/-- Behavior of the Go standard library functions used by the property
mapper. `timeParse layout value` returns the parsed instant (seconds and
nanoseconds) or `none` for a parse error; `timeFormatRFC3339` renders an
whole seconds of an instant (the RFC 3339 layout used by `getTimestamp` carries no
sub-second digits, so the rendering depends only on whole seconds);
`jsonMarshal` and `jsonUnmarshal` model `encoding/json` over the value
universe. -/
structure GoStdlib where
  timeParse : String → String → Option (Int × Int)
  timeFormatRFC3339 : Int → String
  jsonMarshal : GoVal → Except String String
  jsonUnmarshal : String → GoTy → Except String GoVal

/-- A trivial standard library instantiation used by concrete witnesses
(no settled claim depends on stdlib behavior). -/
def trivLib : GoStdlib where
  timeParse := fun _ _ => none
  timeFormatRFC3339 := fun _ => ""
  jsonMarshal := fun _ => .error "unsupported"
  jsonUnmarshal := fun _ _ => .error "unsupported"

/-! ## Dynamic arguments of the engine verbs

The orchestration verbs take `interface\x7b\x7d` arguments that may be nil, a
slice, a map, a struct or a pointer; `GoAny` is that argument universe. -/

/-- Dynamic values passed to and from the engine verbs. `ptrMapSlice`
models a `*[]map[string]interface\x7b\x7d` output argument by its pointee. -/
inductive GoAny
  | goNil
  | valV (v : GoVal)
  | recordV (r : RecordT)
  | structV (s : GoStruct)
  | ptrStructV (s : Option GoStruct)
  | ifaceSlice (xs : List GoAny)
  | mapSlice (rs : List RecordT)
  | ptrMapSlice (rs : List RecordT)
  | typedSlice (xs : List GoStruct)

/-! ## Property mapper (`engine/property.go`) -/

/-- Go type name of a base type, for error messages. -/
def GoBase.gname : GoBase → String
  | .bStr => "string"
  | .bInt => "int64"
  | .bBool => "bool"
  | .bTime => "time.Time"

/-- Go type name of a field type, for error messages. -/
def GoTy.gname : GoTy → String
  | .base b => b.gname
  | .ptr b => "*" ++ b.gname

/-- Go runtime type name of a dynamic value, for error messages. -/
def GoVal.gname : GoVal → String
  | .prim p => p.ty.gname
  | .ptrV b _ => "*" ++ b.gname
  | .vNull => "nil"

/-- Go conversion `string(r)` of an integer as a rune: the UTF-8 character,
or the replacement character for an invalid code point. -/
def runeString (n : Int) : String :=
  if n < 0 then "�"
  else if n.toNat.isValidChar then String.mk [Char.ofNat n.toNat]
  else "�"

/-- Go `reflect.Type.ConvertibleTo` restricted to the base universe: a
value converts to its own type, and an integer converts to a string as a
rune. Booleans, strings and `time.Time` convert only to themselves. -/
def convertPrim (p : GoPrim) (b : GoBase) : Option GoPrim :=
  if p.ty = b then some p
  else match p, b with
    | .pInt n, .bStr => some (.pStr (runeString n))
    | _, _ => none

/-- Core of `setDirect` for a base-typed destination: direct assignment
when the runtime type matches, else the Go conversion, else the
`cannot assign` error. Pointer-typed values are neither assignable nor
convertible to a base type. -/
def setDirectBase (b : GoBase) (value : GoVal) : Except GoError GoPrim :=
  match value with
  | .prim p =>
    if p.ty = b then .ok p
    else match convertPrim p b with
      | some p2 => .ok p2
      | none => .error (.msg ("cannot assign " ++ p.ty.gname ++ " to " ++ b.gname))
  | v => .error (.msg ("cannot assign " ++ v.gname ++ " to " ++ b.gname))

/-- Embedding of `PropertyMapper.setDirect`: for a pointer field and a
non-pointer value, allocate a cell and set its element; otherwise assign
directly when assignable, convert when convertible, else fail. -/
def setDirect (ty : GoTy) (value : GoVal) : Except GoError GoVal :=
  match ty, value with
  | .ptr b, .prim p => (setDirectBase b (.prim p)).map (fun p2 => .ptrV b (some p2))
  | .ptr b, .ptrV b2 v =>
    if b2 = b then .ok (.ptrV b2 v)
    else .error (.msg ("cannot assign *" ++ b2.gname ++ " to *" ++ b.gname))
  | .ptr b, .vNull => .error (.msg ("cannot assign nil to *" ++ b.gname))
  | .base b, v => (setDirectBase b v).map .prim

/-- The layout list tried by `setTimestamp`, in source order
(`time.RFC3339`, `time.RFC3339Nano`, then three literal layouts). -/
def timestampFormats : List String :=
  ["2006-01-02T15:04:05Z07:00", "2006-01-02T15:04:05.999999999Z07:00",
   "2006-01-02 15:04:05", "2006-01-02T15:04:05", "2006-01-02"]

/-- The parse loop of `setTimestamp`: try the layouts in order, first
success wins. -/
def tryFormats (lib : GoStdlib) (v : String) : List String → Option (Int × Int)
  | [] => none
  | fmt :: rest =>
    match lib.timeParse fmt v with
    | some t => some t
    | none => tryFormats lib v rest

/-- Storing a parsed instant into the destination field of `setTimestamp`:
a pointer field receives a freshly allocated cell. Storing into a field
whose type is not `time.Time` is a reflect panic in Go, modelled as an
error. -/
def setTimeField (ty : GoTy) (sec nsec : Int) : Except GoError GoVal :=
  match ty with
  | .ptr .bTime => .ok (.ptrV .bTime (some (.pTime sec nsec)))
  | .base .bTime => .ok (.prim (.pTime sec nsec))
  | _ => .error (.msg "reflect: set of time.Time into incompatible field")

/-- Embedding of `PropertyMapper.setTimestamp`: accepts a `time.Time`, a
non-nil or nil `*time.Time` (nil leaves the zero instant), a string parsed
against `timestampFormats`, or an `int64` of epoch seconds. -/
def setTimestamp (lib : GoStdlib) (ty : GoTy) (value : GoVal) : Except GoError GoVal :=
  match value with
  | .prim (.pTime sec nsec) => setTimeField ty sec nsec
  | .ptrV .bTime (some (.pTime sec nsec)) => setTimeField ty sec nsec
  | .ptrV .bTime none => setTimeField ty 0 0
  | .prim (.pStr s) =>
    match tryFormats lib s timestampFormats with
    | some t => setTimeField ty t.1 t.2
    | none => .error (.wrap "failed to parse timestamp: " (.msg "parsing time failed"))
  | .prim (.pInt n) => setTimeField ty n 0
  | _ => .error (.msg "unsupported timestamp type")

/-- Embedding of `PropertyMapper.setJSON`: a string value is the payload
directly, any other value is marshalled first; the payload is then
unmarshalled into the destination field (allocating a cell for a nil
pointer destination, absorbed into `jsonUnmarshal`). -/
def setJSON (lib : GoStdlib) (ty : GoTy) (value : GoVal) : Except GoError GoVal :=
  let jsonData : Except GoError String :=
    match value with
    | .prim (.pStr s) => .ok s
    | v =>
      match lib.jsonMarshal v with
      | .ok s => .ok s
      | .error e => .error (.wrap "failed to marshal to JSON: " (.msg e))
  match jsonData with
  | .error e => .error e
  | .ok s =>
    match lib.jsonUnmarshal s ty with
    | .ok v2 => .ok v2
    | .error e => .error (.wrap "failed to unmarshal JSON: " (.msg e))

/-- Embedding of `PropertyMapper.setValue`: a nil value sets the zero
value of the field type; otherwise dispatch on the type hint. -/
def setValue (lib : GoStdlib) (ty : GoTy) (value : GoVal) (typeHint : String) :
    Except GoError GoVal :=
  if value = .vNull then .ok ty.zero
  else if typeHint = "timestamp" then setTimestamp lib ty value
  else if typeHint = "json" then setJSON lib ty value
  else setDirect ty value

/-- Embedding of `PropertyMapper.getTimestamp`: only a `time.Time` field
is accepted; the instant is formatted with the RFC 3339 layout (whole
seconds only). -/
def getTimestamp (lib : GoStdlib) (v : GoVal) : Except GoError GoVal :=
  match v with
  | .prim (.pTime sec _) => .ok (.prim (.pStr (lib.timeFormatRFC3339 sec)))
  | _ => .error (.msg "field is not a time.Time")

/-- Embedding of `PropertyMapper.getJSON`: marshal the field value. -/
def getJSON (lib : GoStdlib) (v : GoVal) : Except GoError GoVal :=
  match lib.jsonMarshal v with
  | .ok s => .ok (.prim (.pStr s))
  | .error e => .error (.wrap "failed to marshal to JSON: " (.msg e))

/-- Hint dispatch of `getValue` after pointer dereferencing. -/
def getValueCore (lib : GoStdlib) (v : GoVal) (typeHint : String) : Except GoError GoVal :=
  if typeHint = "timestamp" then getTimestamp lib v
  else if typeHint = "json" then getJSON lib v
  else .ok v

/-- Embedding of `PropertyMapper.getValue`: a nil pointer field reads as
nil; a non-nil pointer field is dereferenced; then hint dispatch. -/
def getValue (lib : GoStdlib) (v : GoVal) (typeHint : String) : Except GoError GoVal :=
  match v with
  | .ptrV _ none => .ok .vNull
  | .ptrV _ (some p) => getValueCore lib (.prim p) typeHint
  | v2 => getValueCore lib v2 typeHint

/-- What `getValue` yields under the default hint. -/
def getDefault : GoVal → GoVal
  | .ptrV _ none => .vNull
  | .ptrV _ (some p) => .prim p
  | v => v

/-- The field loop of `MapToObject`: mappings whose record field is absent
are skipped; a missing target field is an error; otherwise the coerced
value is written. All modelled fields are exported, hence settable, so the
`CanSet` failure branch of the source is unreachable in the model. -/
def mapToObjectLoop (lib : GoStdlib) (data : RecordT) (tgt : GoStruct) :
    List PropertyMap → Except GoError GoStruct
  | [] => .ok tgt
  | m :: rest =>
    match slookup data m.Field with
    | none => mapToObjectLoop lib data tgt rest
    | some dataValue =>
      match fieldByName tgt m.Object with
      | none => .error (.msg ("field " ++ m.Object ++ " not found in target struct"))
      | some f =>
        match setValue lib f.ty dataValue m.TypeHint with
        | .error e => .error (.wrap ("failed to set field " ++ m.Object ++ ": ") e)
        | .ok nv => mapToObjectLoop lib data (setField tgt m.Object nv) rest

/-- Embedding of `PropertyMapper.MapToObject`: the target must be a
non-nil pointer to a struct; the new struct value is returned in place of
the in-place mutation of the Go code. -/
def MapToObject (lib : GoStdlib) (data : RecordT) (target : GoAny)
    (mappings : List PropertyMap) : Except GoError GoStruct :=
  match target with
  | .goNil => .error (.msg "target cannot be nil")
  | .ptrStructV (some tgt) => mapToObjectLoop lib data tgt mappings
  | .ptrStructV none => .error (.msg "target must be a pointer to struct, got pointer to invalid")
  | .ptrMapSlice _ => .error (.msg "target must be a pointer to struct, got pointer to slice")
  | _ => .error (.msg "target must be a pointer")

/-- The field loop of `MapFromObject`: mappings flagged generated are
skipped; a missing object field is an error; otherwise the extracted value
is stored under the record field name. -/
def mapFromObjectLoop (lib : GoStdlib) (s : GoStruct) :
    List PropertyMap → RecordT → Except GoError RecordT
  | [], data => .ok data
  | m :: rest, data =>
    if m.Generated then mapFromObjectLoop lib s rest data
    else
      match fieldByName s m.Object with
      | none => .error (.msg ("field " ++ m.Object ++ " not found in object"))
      | some f =>
        match getValue lib f.val m.TypeHint with
        | .error e => .error (.wrap ("failed to get field " ++ m.Object ++ ": ") e)
        | .ok v => mapFromObjectLoop lib s rest (sinsert data m.Field v)

/-- Embedding of `PropertyMapper.MapFromObject`: the object must be a
struct or a non-nil pointer to one. -/
def MapFromObject (lib : GoStdlib) (obj : GoAny) (mappings : List PropertyMap) :
    Except GoError RecordT :=
  match obj with
  | .goNil => .error (.msg "object cannot be nil")
  | .structV s => mapFromObjectLoop lib s mappings []
  | .ptrStructV (some s) => mapFromObjectLoop lib s mappings []
  | .ptrStructV none => .error (.msg "object must be a struct or pointer to struct, got invalid")
  | _ => .error (.msg "object must be a struct or pointer to struct")

/-- The value of a named field of a struct. -/
def lookupVal (s : GoStruct) (n : String) : Option GoVal :=
  (fieldByName s n).map GoField.val

/-! ## Configuration parser lookup (`config/parser.go`) -/

/-- Loaded-configuration state of `config.Parser` (the credential
resolver plays no role in the embedded lookups). -/
structure Parser where
  configs : List (String × Config)

/-- Embedding of `strings.Split` for a one-character separator. -/
def goSplit (sep : Char) : List Char → List (List Char)
  | [] => [[]]
  | c :: rest =>
    if c = sep then [] :: goSplit sep rest
    else
      match goSplit sep rest with
      | [] => [[c]]
      | g :: gs => (c :: g) :: gs

/-- Embedding of `Parser.GetConfig`. -/
def Parser.GetConfig (p : Parser) (ns : String) : Except GoError Config :=
  match slookup p.configs ns with
  | some cfg => .ok cfg
  | none => .error (.msg ("configuration namespace " ++ ns ++ " not found"))

/-- Embedding of `Parser.GetMapping`: split the identifier on dots,
require exactly two parts, then look up the namespace and the mapping. -/
def Parser.GetMapping (p : Parser) (fullyQualifiedID : String) :
    Except GoError (Mapping × Config) :=
  match (goSplit '.' fullyQualifiedID.toList).map (fun cs => String.mk cs) with
  | [ns, mappingID] =>
    match p.GetConfig ns with
    | .error e => .error e
    | .ok cfg =>
      match slookup cfg.Mappings mappingID with
      | none => .error (.msg ("mapping " ++ mappingID ++ " not found in namespace " ++ ns))
      | some mapping => .ok (mapping, cfg)
  | _ =>
    .error (.msg ("invalid mapping ID " ++ fullyQualifiedID ++
      ": must be in format namespace.mappingID"))

/-! ## Adapter boundary (`adapter` package)

The `adapter` package source file is not under src (only its tests,
documentation and callers are); its data shapes are modelled from the spec
and from their use sites. -/

/-- Modelled from the spec: the operation type tags of the adapter
contract (fetch, insert, update, delete, custom action). -/
inductive OperationType
  | opFetch
  | opInsert
  | opUpdate
  | opDelete
  | opAction
deriving DecidableEq

/-- Modelled from the spec: `adapter.PropertyMapping`, the per-field
mapping handed to adapters. -/
structure PropertyMapping where
  ObjectField : String
  DataField : String
  TypeHint : String
  Generated : Bool
deriving DecidableEq

/-- Modelled from the spec: `adapter.Operation`, the operation descriptor
handed to adapters, as populated by `buildOperation`. -/
structure Operation where
  OpType : OperationType
  Statement : String
  Properties : List PropertyMapping
  Identifier : List PropertyMapping
  Generated : List PropertyMapping
  Bulk : Bool
  Multi : Bool
deriving DecidableEq

/-- Calls made on adapter instances during a verb, recorded so that
theorems can speak about which adapter operations an engine call performs.
`createEv` marks a factory invocation, `connectEv` a `Connect` call. -/
inductive AdapterEvent
  | createEv (sourceID : String)
  | connectEv (sourceID : String)
  | fetchEv (sourceID : String)
  | insertEv (sourceID : String)
  | updateEv (sourceID : String)
  | deleteEv (sourceID : String)
deriving DecidableEq

/-- Whether an event is an adapter data operation (not acquisition). -/
def AdapterEvent.isDataOp : AdapterEvent → Bool
  | .createEv _ => false
  | .connectEv _ => false
  | _ => true

/-- Behavior of adapter instances of handle type `α`: the outcome of each
adapter-contract call. `Option GoError` models a Go `error` return (`none`
is the nil error). -/
structure AdapterModel (α : Type) where
  connect : α → RecordT → Option GoError
  fetch : α → Operation → RecordT → Except GoError (List GoAny)
  insert : α → Operation → List GoAny → Option GoError
  update : α → Operation → List GoAny → Option GoError
  delete : α → Operation → List GoAny → Option GoError

/-! ## Adapter registry (`engine/registry.go`) -/

/-- State of `engine.AdapterRegistry`: factories by adapter type tag and
cached instances by source identifier. A factory is a Go
`func(config.Source) (adapter.Adapter, error)`. -/
structure AdapterRegistry (α : Type) where
  factories : List (String × (Source → Except GoError α))
  instances : List (String × α)

/-- Embedding of `AdapterRegistry.GetAdapter` in its sequential semantics
(the read-lock check and the double-check under the write lock coincide):
return the cached instance when present; otherwise look up the factory,
construct, connect, and cache only after a successful connect. Returns
the result, the updated registry, and the adapter calls performed. -/
def GetAdapter {α : Type} (am : AdapterModel α) (ar : AdapterRegistry α)
    (source : Source) (sourceID : String) :
    Except GoError α × AdapterRegistry α × List AdapterEvent :=
  match slookup ar.instances sourceID with
  | some inst => (.ok inst, ar, [])
  | none =>
    match slookup ar.factories source.Adapter with
    | none =>
      (.error (.msg ("no adapter factory registered for type " ++ source.Adapter)), ar, [])
    | some factory =>
      match factory source with
      | .error err =>
        (.error (.wrap ("failed to create adapter instance for " ++ source.Adapter ++ ": ") err),
         ar, [.createEv sourceID])
      | .ok inst =>
        match am.connect inst source.Options with
        | some err =>
          (.error (.wrap ("failed to connect adapter " ++ source.Adapter ++ ": ") err),
           ar, [.createEv sourceID, .connectEv sourceID])
        | none =>
          (.ok inst,
           { ar with instances := sinsert ar.instances sourceID inst },
           [.createEv sourceID, .connectEv sourceID])

/-! ## Orchestration engine (`engine/mapper.go`) -/

/-- State of `engine.Mapper`: the loaded parser and the adapter registry
(the property mapper is stateless). -/
structure Mapper (α : Type) where
  parser : Parser
  registry : AdapterRegistry α

/-- Embedding of `Mapper.resolveSource`: the operation-specific source
takes precedence; else the first entry of the fallback chain; else the
default mapping source; else the no-source error. Every selected name is
looked up in the loaded sources. -/
def resolveSource (cfg : Config) (mapping : Mapping) (opConfig : OperationConfig) :
    Except GoError (Source × String) :=
  if opConfig.Source ≠ "" then
    match slookup cfg.Sources opConfig.Source with
    | none => .error (.msg ("source " ++ opConfig.Source ++ " not found"))
    | some s => .ok (s, opConfig.Source)
  else
    match opConfig.Sources with
    | sourceRef :: _ =>
      match slookup cfg.Sources sourceRef.Name with
      | none => .error (.msg ("source " ++ sourceRef.Name ++ " not found"))
      | some s => .ok (s, sourceRef.Name)
    | [] =>
      if mapping.Source ≠ "" then
        match slookup cfg.Sources mapping.Source with
        | none => .error (.msg ("source " ++ mapping.Source ++ " not found"))
        | some s => .ok (s, mapping.Source)
      else .error (.msg "no source configured for operation")

/-- Conversion of a configuration property map into an adapter one, as
done inline by `buildOperation`. -/
def toPropertyMapping (generated : Bool) (pm : PropertyMap) : PropertyMapping :=
  { ObjectField := pm.Object, DataField := pm.Field,
    TypeHint := pm.TypeHint, Generated := generated || pm.Generated }

/-- Embedding of `Mapper.buildOperation`: populate the adapter operation
from the operation configuration (identifier mappings drop the generated
flag; mappings from the `Generated` list are forced generated). -/
def buildOperation (opType : OperationType) (opConfig : OperationConfig) : Operation :=
  { OpType := opType
    Statement := opConfig.Statement
    Bulk := opConfig.Bulk
    Properties := opConfig.Properties.map (toPropertyMapping false)
    Identifier := opConfig.Identifier.map (fun pm =>
      { ObjectField := pm.Object, DataField := pm.Field, TypeHint := pm.TypeHint,
        Generated := false })
    Generated := opConfig.Generated.map (toPropertyMapping true)
    Multi := false }

/-- Embedding of `Mapper.executeAfterActions` (a stub returning nil in the
source). -/
def executeAfterActions (cfg : Config) (actions : List AfterActionConfig)
    (data : Option RecordT) : Option GoError :=
  none

/-- Embedding of `Mapper.toSlice`: nil is an error; `[]interface\x7b\x7d` and
`[]map[string]interface\x7b\x7d` are taken element-wise; anything else becomes a
one-element list. -/
def toSlice (objects : GoAny) : Except GoError (List GoAny) :=
  match objects with
  | .goNil => .error (.msg "objects cannot be nil")
  | .ifaceSlice xs => .ok xs
  | .mapSlice rs => .ok (rs.map GoAny.recordV)
  | v => .ok [v]

/-- Embedding of `Mapper.mapSliceResults`: only a
`*[]map[string]interface\x7b\x7d` output is supported; record items are copied
through, non-record items leave a nil (empty) map. -/
def mapSliceResults (data : List GoAny) (results : GoAny)
    (mappings : List PropertyMap) : Except GoError GoAny :=
  match results with
  | .ptrMapSlice _ =>
    .ok (.ptrMapSlice (data.map (fun item =>
      match item with
      | .recordV r => r
      | _ => [])))
  | _ =>
    .error (.msg "results must be a pointer to a slice of maps for now (full reflection support coming soon)")

/-- The object-to-record loop shared by `Insert` and `Update`, with the
per-index error message. -/
def mapObjects (lib : GoStdlib) (mappings : List PropertyMap) :
    List GoAny → Nat → Except GoError (List GoAny)
  | [], _ => .ok []
  | obj :: rest, i =>
    match MapFromObject lib obj mappings with
    | .error e => .error (.wrap ("failed to map object " ++ toString i ++ ": ") e)
    | .ok data =>
      match mapObjects lib mappings rest (i + 1) with
      | .error e => .error e
      | .ok ds => .ok (.recordV data :: ds)

/-- Embedding of `Mapper.Fetch`: look up the mapping and its fetch
operation, resolve the source, obtain the adapter, issue a single-result
fetch, translate an empty result list into the NotFound sentinel, and map
the first record into the output object when a result descriptor exists.
Returns the (possibly updated) output argument, the updated registry, and
the adapter calls performed. -/
def Fetch {α : Type} (lib : GoStdlib) (am : AdapterModel α) (mp : Mapper α)
    (mappingID : String) (params : RecordT) (result : GoAny) :
    Except GoError GoAny × AdapterRegistry α × List AdapterEvent :=
  match mp.parser.GetMapping mappingID with
  | .error e => (.error e, mp.registry, [])
  | .ok (mapping, cfg) =>
    match slookup mapping.Operations "fetch" with
    | none =>
      (.error (.msg ("mapping " ++ mappingID ++ " does not have a fetch operation")),
       mp.registry, [])
    | some opConfig =>
      match resolveSource cfg mapping opConfig with
      | .error e => (.error (.wrap "failed to resolve source for fetch: " e), mp.registry, [])
      | .ok (source, sourceID) =>
        match GetAdapter am mp.registry source sourceID with
        | (.error e, reg, evs) => (.error (.wrap "failed to get adapter: " e), reg, evs)
        | (.ok adp, reg, evs) =>
          let op := { buildOperation .opFetch opConfig with Multi := false }
          match am.fetch adp op params with
          | .error e =>
            (.error (.wrap "fetch failed: " e), reg, evs ++ [.fetchEv sourceID])
          | .ok results =>
            match results with
            | [] => (.error ErrNotFound, reg, evs ++ [.fetchEv sourceID])
            | r0 :: _ =>
              match opConfig.Result with
              | none => (.ok result, reg, evs ++ [.fetchEv sourceID])
              | some rc =>
                match r0 with
                | .recordV dataMap =>
                  match MapToObject lib dataMap result rc.Properties with
                  | .error e =>
                    (.error (.wrap "failed to map result: " e), reg, evs ++ [.fetchEv sourceID])
                  | .ok newStruct =>
                    (.ok (.ptrStructV (some newStruct)), reg, evs ++ [.fetchEv sourceID])
                | _ =>
                  (.error (.msg "expected map[string]interface, got other"), reg,
                   evs ++ [.fetchEv sourceID])

/-- Embedding of `Mapper.FetchMulti`: as `Fetch` but in multi-result mode;
results are mapped into the output slice only when a result descriptor
exists and at least one record came back. -/
def FetchMulti {α : Type} (lib : GoStdlib) (am : AdapterModel α) (mp : Mapper α)
    (mappingID : String) (params : RecordT) (results : GoAny) :
    Except GoError GoAny × AdapterRegistry α × List AdapterEvent :=
  match mp.parser.GetMapping mappingID with
  | .error e => (.error e, mp.registry, [])
  | .ok (mapping, cfg) =>
    match slookup mapping.Operations "fetch" with
    | none =>
      (.error (.msg ("mapping " ++ mappingID ++ " does not have a fetch operation")),
       mp.registry, [])
    | some opConfig =>
      match resolveSource cfg mapping opConfig with
      | .error e => (.error (.wrap "failed to resolve source for fetch: " e), mp.registry, [])
      | .ok (source, sourceID) =>
        match GetAdapter am mp.registry source sourceID with
        | (.error e, reg, evs) => (.error (.wrap "failed to get adapter: " e), reg, evs)
        | (.ok adp, reg, evs) =>
          let op := { buildOperation .opFetch opConfig with Multi := true }
          match am.fetch adp op params with
          | .error e =>
            (.error (.wrap "fetch failed: " e), reg, evs ++ [.fetchEv sourceID])
          | .ok data =>
            match opConfig.Result with
            | some rc =>
              if data.length > 0 then
                match mapSliceResults data results rc.Properties with
                | .error e =>
                  (.error (.wrap "failed to map results: " e), reg, evs ++ [.fetchEv sourceID])
                | .ok newOut => (.ok newOut, reg, evs ++ [.fetchEv sourceID])
              else (.ok results, reg, evs ++ [.fetchEv sourceID])
            | none => (.ok results, reg, evs ++ [.fetchEv sourceID])

/-- Embedding of `Mapper.Insert`: look up the mapping and its insert
operation, resolve the source, obtain the adapter, normalize the objects
argument to a list, map each object to a record, invoke the adapter
insert, then run after-actions. -/
def Insert {α : Type} (lib : GoStdlib) (am : AdapterModel α) (mp : Mapper α)
    (mappingID : String) (objects : GoAny) :
    Except GoError Unit × AdapterRegistry α × List AdapterEvent :=
  match mp.parser.GetMapping mappingID with
  | .error e => (.error e, mp.registry, [])
  | .ok (mapping, cfg) =>
    match slookup mapping.Operations "insert" with
    | none =>
      (.error (.msg ("mapping " ++ mappingID ++ " does not have an insert operation")),
       mp.registry, [])
    | some opConfig =>
      match resolveSource cfg mapping opConfig with
      | .error e => (.error (.wrap "failed to resolve source for insert: " e), mp.registry, [])
      | .ok (source, sourceID) =>
        match GetAdapter am mp.registry source sourceID with
        | (.error e, reg, evs) => (.error (.wrap "failed to get adapter: " e), reg, evs)
        | (.ok adp, reg, evs) =>
          let op := buildOperation .opInsert opConfig
          match toSlice objects with
          | .error e => (.error (.wrap "failed to convert objects: " e), reg, evs)
          | .ok objectSlice =>
            match mapObjects lib opConfig.Properties objectSlice 0 with
            | .error e => (.error e, reg, evs)
            | .ok dataObjects =>
              match am.insert adp op dataObjects with
              | some err =>
                (.error (.wrap "insert failed: " err), reg, evs ++ [.insertEv sourceID])
              | none =>
                match executeAfterActions cfg opConfig.After none with
                | some err =>
                  (.error (.wrap "after actions failed: " err), reg, evs ++ [.insertEv sourceID])
                | none => (.ok (), reg, evs ++ [.insertEv sourceID])

/-- Embedding of `Mapper.Update`: identical in shape to `Insert` but for
the update operation and the adapter update call. -/
def Update {α : Type} (lib : GoStdlib) (am : AdapterModel α) (mp : Mapper α)
    (mappingID : String) (objects : GoAny) :
    Except GoError Unit × AdapterRegistry α × List AdapterEvent :=
  match mp.parser.GetMapping mappingID with
  | .error e => (.error e, mp.registry, [])
  | .ok (mapping, cfg) =>
    match slookup mapping.Operations "update" with
    | none =>
      (.error (.msg ("mapping " ++ mappingID ++ " does not have an update operation")),
       mp.registry, [])
    | some opConfig =>
      match resolveSource cfg mapping opConfig with
      | .error e => (.error (.wrap "failed to resolve source for update: " e), mp.registry, [])
      | .ok (source, sourceID) =>
        match GetAdapter am mp.registry source sourceID with
        | (.error e, reg, evs) => (.error (.wrap "failed to get adapter: " e), reg, evs)
        | (.ok adp, reg, evs) =>
          let op := buildOperation .opUpdate opConfig
          match toSlice objects with
          | .error e => (.error (.wrap "failed to convert objects: " e), reg, evs)
          | .ok objectSlice =>
            match mapObjects lib opConfig.Properties objectSlice 0 with
            | .error e => (.error e, reg, evs)
            | .ok dataObjects =>
              match am.update adp op dataObjects with
              | some err =>
                (.error (.wrap "update failed: " err), reg, evs ++ [.updateEv sourceID])
              | none =>
                match executeAfterActions cfg opConfig.After none with
                | some err =>
                  (.error (.wrap "after actions failed: " err), reg, evs ++ [.updateEv sourceID])
                | none => (.ok (), reg, evs ++ [.updateEv sourceID])

/-- Embedding of `Mapper.Delete`: as the other write verbs but the
normalized identifier list is handed to the adapter without record
mapping. -/
def Delete {α : Type} (lib : GoStdlib) (am : AdapterModel α) (mp : Mapper α)
    (mappingID : String) (identifiers : GoAny) :
    Except GoError Unit × AdapterRegistry α × List AdapterEvent :=
  match mp.parser.GetMapping mappingID with
  | .error e => (.error e, mp.registry, [])
  | .ok (mapping, cfg) =>
    match slookup mapping.Operations "delete" with
    | none =>
      (.error (.msg ("mapping " ++ mappingID ++ " does not have a delete operation")),
       mp.registry, [])
    | some opConfig =>
      match resolveSource cfg mapping opConfig with
      | .error e => (.error (.wrap "failed to resolve source for delete: " e), mp.registry, [])
      | .ok (source, sourceID) =>
        match GetAdapter am mp.registry source sourceID with
        | (.error e, reg, evs) => (.error (.wrap "failed to get adapter: " e), reg, evs)
        | (.ok adp, reg, evs) =>
          let op := buildOperation .opDelete opConfig
          match toSlice identifiers with
          | .error e => (.error (.wrap "failed to convert identifiers: " e), reg, evs)
          | .ok idSlice =>
            match am.delete adp op idSlice with
            | some err =>
              (.error (.wrap "delete failed: " err), reg, evs ++ [.deleteEv sourceID])
            | none =>
              match executeAfterActions cfg opConfig.After none with
              | some err =>
                (.error (.wrap "after actions failed: " err), reg, evs ++ [.deleteEv sourceID])
              | none => (.ok (), reg, evs ++ [.deleteEv sourceID])

/-- Embedding of `Mapper.Execute`: the source returns a not-implemented
error unconditionally (marked TODO in the code). -/
def Execute {α : Type} (mp : Mapper α) (actionID : String) (params : RecordT)
    (result : GoAny) : Except GoError GoAny :=
  .error (.msg "Execute not yet implemented")

/-! ## Interleaving model of `GetAdapter` locking

`AdapterRegistry` guards both the cache read and the whole creation
sequence — including `instance.Connect` — with one registry-wide
`sync.RWMutex` (`ar.mu`). This small-step model makes the lock protocol
of `GetAdapter` explicit for two concurrent calls so that the
cross-source blocking behavior can be settled. Each program counter value
names a point in `engine/registry.go`; a step is one atomic protocol
action. The model is generous to the code: pending writers do not block
new readers (the writer-preferring Go `RWMutex` blocks strictly more). -/

/-- State of the registry-wide `sync.RWMutex`. -/
inductive LockState
  | unlocked
  | rlocked (n : Nat)
  | wlocked
deriving DecidableEq

/-- Program counter of one `GetAdapter` call: before `mu.RLock()`; holding
the read lock for the cache check and `mu.RUnlock()`; before `mu.Lock()`;
holding the write lock for the double-check, factory lookup and
construction; inside `instance.Connect` (still holding the write lock);
and returned. -/
inductive GAPc
  | start
  | readCheck
  | lockAcq
  | critStart
  | connecting
  | finished
deriving DecidableEq

/-- One in-flight `GetAdapter` call: its source identifier and position. -/
structure GAThread where
  sourceID : String
  pc : GAPc
deriving DecidableEq

/-- Global configuration of two concurrent `GetAdapter` calls against one
registry: the mutex, the set of cached source identifiers, and the two
threads. -/
structure RegConfig where
  lock : LockState
  cached : List String
  t0 : GAThread
  t1 : GAThread
deriving DecidableEq

/-- The step of one thread, when enabled: acquire the read lock (blocked
while the write lock is held), check the cache and release the read lock,
acquire the write lock (blocked unless free), double-check the cache and
either return or begin connecting, and finish connecting (store the
instance, release the write lock). Returns the new thread, lock and
cache, or `none` when the thread is blocked or done. -/
def stepPc (c : RegConfig) (t : GAThread) : Option (GAThread × LockState × List String) :=
  match t.pc with
  | .start =>
    match c.lock with
    | .wlocked => none
    | .unlocked => some ({ t with pc := .readCheck }, .rlocked 1, c.cached)
    | .rlocked n => some ({ t with pc := .readCheck }, .rlocked (n + 1), c.cached)
  | .readCheck =>
    let newLock : LockState :=
      match c.lock with
      | .rlocked (n + 1) => if n = 0 then .unlocked else .rlocked n
      | l => l
    if t.sourceID ∈ c.cached then some ({ t with pc := .finished }, newLock, c.cached)
    else some ({ t with pc := .lockAcq }, newLock, c.cached)
  | .lockAcq =>
    match c.lock with
    | .unlocked => some ({ t with pc := .critStart }, .wlocked, c.cached)
    | _ => none
  | .critStart =>
    if t.sourceID ∈ c.cached then some ({ t with pc := .finished }, .unlocked, c.cached)
    else some ({ t with pc := .connecting }, c.lock, c.cached)
  | .connecting =>
    some ({ t with pc := .finished }, .unlocked, t.sourceID :: c.cached)
  | .finished => none

/-- Scheduler step: thread 0 when the index is 0, else thread 1. -/
def threadStep (c : RegConfig) (i : Nat) : Option RegConfig :=
  if i = 0 then
    (stepPc c c.t0).map (fun r => { lock := r.2.1, cached := r.2.2, t0 := r.1, t1 := c.t1 })
  else
    (stepPc c c.t1).map (fun r => { lock := r.2.1, cached := r.2.2, t0 := c.t0, t1 := r.1 })

/-- Run a schedule; a blocked thread leaves the configuration unchanged. -/
def runSched (c : RegConfig) : List Nat → RegConfig
  | [] => c
  | i :: rest => runSched ((threadStep c i).getD c) rest

/-- Initial configuration: lock free, both calls at their entry point. -/
def initConfig (a b : String) (cached : List String) : RegConfig :=
  { lock := .unlocked, cached := cached,
    t0 := { sourceID := a, pc := .start }, t1 := { sourceID := b, pc := .start } }

/-- Whether a thread holds the write lock (double-check, construction, or
connect). -/
def inCrit : GAPc → Bool
  | .critStart => true
  | .connecting => true
  | _ => false

/-- Whether a thread holds the read lock. -/
def holdsRead : GAPc → Bool
  | .readCheck => true
  | _ => false

/-- The lock state determined by the two program counters in a
well-formed configuration. -/
def lockFor (p0 p1 : GAPc) : LockState :=
  if inCrit p0 || inCrit p1 then .wlocked
  else
    match holdsRead p0, holdsRead p1 with
    | true, true => .rlocked 2
    | true, false => .rlocked 1
    | false, true => .rlocked 1
    | false, false => .unlocked

/-- Well-formedness invariant of reachable configurations: the lock state
matches the program counters, and lock holders exclude each other as the
mutex demands. -/
def regInv (c : RegConfig) : Prop :=
  c.lock = lockFor c.t0.pc c.t1.pc ∧
  ¬(inCrit c.t0.pc = true ∧ inCrit c.t1.pc = true) ∧
  ¬(inCrit c.t0.pc = true ∧ holdsRead c.t1.pc = true) ∧
  ¬(holdsRead c.t0.pc = true ∧ inCrit c.t1.pc = true)

/-! ## Shape of struct values

Two struct values have the same shape when their field names and types
agree position-wise; mapping a record into a zero value of the same type
walks structs of the shape of the original object. -/

/-- Position-wise agreement of field names and types. -/
inductive SameShape : GoStruct → GoStruct → Prop
  | nil : SameShape [] []
  | cons {f g : GoField} {fs gs : GoStruct} :
      f.name = g.name → f.ty = g.ty → SameShape fs gs → SameShape (f :: fs) (g :: gs)

/-! ## Concrete fixtures used by witnesses and counterexamples -/

/-- A mock source descriptor. -/
def srcMock : Source := { Adapter := "mock", Connection := "test://localhost", Options := [] }

/-- An adapter model over `Unit` handles whose fetch returns no records
and whose other calls succeed. -/
def amUnit : AdapterModel Unit where
  connect := fun _ _ => none
  fetch := fun _ _ _ => .ok []
  insert := fun _ _ _ => none
  update := fun _ _ _ => none
  delete := fun _ _ _ => none

/-- An adapter model over `Unit` handles whose update reports the
no-matching-record sentinel. -/
def amNF : AdapterModel Unit where
  connect := fun _ _ => none
  fetch := fun _ _ _ => .ok []
  insert := fun _ _ _ => none
  update := fun _ _ _ => some ErrNotFound
  delete := fun _ _ _ => none

/-- A result descriptor mapping `id`/`name` to `ID`/`Name`. -/
def rcEx : ResultConfig :=
  { TypeName := "User", Multi := false,
    Properties := [{ Object := "ID", Field := "id", TypeHint := "", Generated := false },
                   { Object := "Name", Field := "name", TypeHint := "", Generated := false }] }

/-- An operation configuration with no source override and the result
descriptor `rcEx`. -/
def opEx : OperationConfig :=
  { Source := "", Sources := [], Statement := "SELECT", Parameters := [],
    Properties := [], Identifier := [], Generated := [], Condition := [],
    Result := some rcEx, Bulk := false, After := [] }

/-- A mapping with default source `db` and all four operations. -/
def mapEx : Mapping :=
  { Object := "User", Source := "db",
    Operations := [("fetch", opEx), ("insert", opEx), ("update", opEx), ("delete", opEx)],
    Actions := [] }

/-- A loaded configuration with one source and one mapping. -/
def cfgEx : Config :=
  { Namespace := "test", Version := "1.0",
    Sources := [("db", srcMock)], Mappings := [("user", mapEx)] }

/-- A parser holding `cfgEx` under its namespace. -/
def parserEx : Parser := { configs := [("test", cfgEx)] }

/-- A registry with a registered factory and a cached `db` instance. -/
def regCached : AdapterRegistry Unit :=
  { factories := [("mock", fun _ => .ok ())], instances := [("db", ())] }

/-- A registry with a registered factory and an empty instance cache. -/
def regFresh : AdapterRegistry Unit :=
  { factories := [("mock", fun _ => .ok ())], instances := [] }

/-- A mapper over the cached registry. -/
def mpCached : Mapper Unit := { parser := parserEx, registry := regCached }

/-- A mapper over the fresh registry. -/
def mpFresh : Mapper Unit := { parser := parserEx, registry := regFresh }

/-- A two-field integer struct used by the round-trip counterexample. -/
def sAB : GoStruct :=
  [{ name := "A", ty := .base .bInt, val := .prim (.pInt 1) },
   { name := "B", ty := .base .bInt, val := .prim (.pInt 2) }]

/-- Two non-generated default-hint mappings that share one record field:
every hypothesis of the round-trip claim holds, yet the record key `x` is
written twice. -/
def mDup : List PropertyMap :=
  [{ Object := "A", Field := "x", TypeHint := "", Generated := false },
   { Object := "B", Field := "x", TypeHint := "", Generated := false }]

/-- A two-field string struct used by the round-trip witness. -/
def sUser : GoStruct :=
  [{ name := "ID", ty := .base .bStr, val := .prim (.pStr "7") },
   { name := "Name", ty := .ptr .bStr, val := .ptrV .bStr (some (.pStr "Ada")) }]

/-- Distinct-record-field mappings for the round-trip witness. -/
def mUser : List PropertyMap :=
  [{ Object := "ID", Field := "id", TypeHint := "", Generated := false },
   { Object := "Name", Field := "name", TypeHint := "", Generated := false }]

/-- Occurrences of a character in a character list. -/
def countChar (c : Char) : List Char → Nat
  | [] => 0
  | c2 :: rest => (if c2 = c then 1 else 0) + countChar c rest

/-- Number of dots in a mapping identifier. -/
def countDots (s : String) : Nat := countChar '.' s.toList

/-! # Theorems -/

theorem goSplit_length (sep : Char) (l : List Char) :
    (goSplit sep l).length = countChar sep l + 1 := by
  induction l with
  | nil => simp [goSplit, countChar]
  | cons c rest ih =>
    by_cases h : c = sep
    · simp [goSplit, h, countChar, ih]; omega
    · simp only [goSplit, if_neg h, countChar, h, if_false]
      cases hg : goSplit sep rest with
      | nil => rw [hg] at ih; simp at ih
      | cons g gs =>
        rw [hg] at ih
        simpa using ih

/-- C10: a mapping identifier that does not contain exactly one dot always
fails with the invalid-mapping-ID error of `Parser.GetMapping`, whatever
configurations are loaded. -/
theorem GetMapping_invalid_id (p : Parser) (idStr : String) (h : countDots idStr ≠ 1) :
    p.GetMapping idStr =
      .error (.msg ("invalid mapping ID " ++ idStr ++
        ": must be in format namespace.mappingID")) := by
  have hlen : ((goSplit '.' idStr.toList).map (fun cs => String.mk cs)).length ≠ 2 := by
    rw [List.length_map, goSplit_length]
    unfold countDots at h
    omega
  unfold Parser.GetMapping
  generalize hp : (goSplit '.' idStr.toList).map (fun cs => String.mk cs) = parts at hlen ⊢
  rcases parts with _ | ⟨a, _ | ⟨b, _ | ⟨c, tl⟩⟩⟩
  · rfl
  · rfl
  · simp at hlen
  · rfl

/-- C10 witness: the dotless identifier `users` is rejected by a parser
that has a configuration loaded. -/
theorem GetMapping_invalid_id_witness :
    countDots "users" ≠ 1 ∧
    parserEx.GetMapping "users" =
      .error (.msg ("invalid mapping ID users: must be in format namespace.mappingID")) :=
  ⟨by decide, GetMapping_invalid_id parserEx "users" (by decide)⟩

/-- C8: the custom-action verb of the engine does not route to the configured
Action Descriptor; `Execute` in the source returns a not-implemented error
unconditionally, for every action identifier, parameter set and output
argument. -/
theorem Execute_not_implemented {α : Type} (mp : Mapper α) (actionID : String)
    (params : RecordT) (result : GoAny) :
    Execute mp actionID params result = .error (.msg "Execute not yet implemented") := rfl

/-- C4: source resolution order of `resolveSource`: the explicit override
source is used alone when non-empty; else the first entry of a non-empty
fallback chain, with the remaining entries never consulted; else the
non-empty default source of the mapping; else the no-source-configured error;
and every selected name absent from the loaded sources is an
unknown-source error. -/
theorem resolveSource_rules (cfg : Config) (mapping : Mapping) (opConfig : OperationConfig) :
    (∀ s, opConfig.Source ≠ "" → slookup cfg.Sources opConfig.Source = some s →
      resolveSource cfg mapping opConfig = .ok (s, opConfig.Source)) ∧
    (opConfig.Source ≠ "" → slookup cfg.Sources opConfig.Source = none →
      resolveSource cfg mapping opConfig =
        .error (.msg ("source " ++ opConfig.Source ++ " not found"))) ∧
    (∀ s r rest, opConfig.Source = "" → opConfig.Sources = r :: rest →
      slookup cfg.Sources r.Name = some s →
      resolveSource cfg mapping opConfig = .ok (s, r.Name)) ∧
    (∀ r rest, opConfig.Source = "" → opConfig.Sources = r :: rest →
      slookup cfg.Sources r.Name = none →
      resolveSource cfg mapping opConfig =
        .error (.msg ("source " ++ r.Name ++ " not found"))) ∧
    (∀ r rest rest2,
      resolveSource cfg mapping { opConfig with Sources := r :: rest } =
        resolveSource cfg mapping { opConfig with Sources := r :: rest2 }) ∧
    (∀ s, opConfig.Source = "" → opConfig.Sources = [] → mapping.Source ≠ "" →
      slookup cfg.Sources mapping.Source = some s →
      resolveSource cfg mapping opConfig = .ok (s, mapping.Source)) ∧
    (opConfig.Source = "" → opConfig.Sources = [] → mapping.Source ≠ "" →
      slookup cfg.Sources mapping.Source = none →
      resolveSource cfg mapping opConfig =
        .error (.msg ("source " ++ mapping.Source ++ " not found"))) ∧
    (opConfig.Source = "" → opConfig.Sources = [] → mapping.Source = "" →
      resolveSource cfg mapping opConfig =
        .error (.msg "no source configured for operation")) := by
  refine ⟨?_, ?_, ?_, ?_, ?_, ?_, ?_, ?_⟩
  · intro s h1 h2; simp [resolveSource, h1, h2]
  · intro h1 h2; simp [resolveSource, h1, h2]
  · intro s r rest h1 h2 h3; simp [resolveSource, h1, h2, h3]
  · intro r rest h1 h2 h3; simp [resolveSource, h1, h2, h3]
  · intro r rest rest2; by_cases h1 : opConfig.Source = "" <;>
      cases h3 : slookup cfg.Sources r.Name <;> simp [resolveSource, h1, h3]
  · intro s h1 h2 h3 h4; simp [resolveSource, h1, h2, h3, h4]
  · intro h1 h2 h3 h4; simp [resolveSource, h1, h2, h3, h4]
  · intro h1 h2 h3; simp [resolveSource, h1, h2, h3]

/-- C4 witness: with no override and no fallback chain, the default
mapping source `db` of the fixture configuration is selected. -/
theorem resolveSource_rules_witness :
    opEx.Source = "" ∧ opEx.Sources = [] ∧ mapEx.Source ≠ "" ∧
    slookup cfgEx.Sources mapEx.Source = some srcMock ∧
    resolveSource cfgEx mapEx opEx = .ok (srcMock, mapEx.Source) :=
  ⟨rfl, rfl, by decide, rfl,
    (resolveSource_rules cfgEx mapEx opEx).2.2.2.2.2.1 srcMock rfl rfl (by decide) rfl⟩

/-- C3: the `GetAdapter` contract: a cached instance is returned as is,
with no factory or connect call and no state change; an unregistered
adapter type yields the unknown-factory error; a failing connect yields
the wrapped connect error; the instance is cached exactly on connect
success; and every failure leaves the instance cache unchanged. -/
theorem GetAdapter_contract {α : Type} (am : AdapterModel α) (ar : AdapterRegistry α)
    (source : Source) (sourceID : String) :
    (∀ inst, slookup ar.instances sourceID = some inst →
      GetAdapter am ar source sourceID = (.ok inst, ar, [])) ∧
    (slookup ar.instances sourceID = none →
      slookup ar.factories source.Adapter = none →
      GetAdapter am ar source sourceID =
        (.error (.msg ("no adapter factory registered for type " ++ source.Adapter)),
         ar, [])) ∧
    (∀ factory inst err, slookup ar.instances sourceID = none →
      slookup ar.factories source.Adapter = some factory →
      factory source = .ok inst →
      am.connect inst source.Options = some err →
      GetAdapter am ar source sourceID =
        (.error (.wrap ("failed to connect adapter " ++ source.Adapter ++ ": ") err),
         ar, [.createEv sourceID, .connectEv sourceID])) ∧
    (∀ factory inst, slookup ar.instances sourceID = none →
      slookup ar.factories source.Adapter = some factory →
      factory source = .ok inst →
      am.connect inst source.Options = none →
      GetAdapter am ar source sourceID =
        (.ok inst, { ar with instances := sinsert ar.instances sourceID inst },
         [.createEv sourceID, .connectEv sourceID])) ∧
    (∀ e reg evs, GetAdapter am ar source sourceID = (.error e, reg, evs) →
      reg.instances = ar.instances) := by
  refine ⟨?_, ?_, ?_, ?_, ?_⟩
  · intro inst h; simp [GetAdapter, h]
  · intro h1 h2; simp [GetAdapter, h1, h2]
  · intro factory inst err h1 h2 h3 h4; simp [GetAdapter, h1, h2, h3, h4]
  · intro factory inst h1 h2 h3 h4; simp [GetAdapter, h1, h2, h3, h4]
  · intro e reg evs h
    cases h1 : slookup ar.instances sourceID with
    | some inst => simp [GetAdapter, h1] at h
    | none =>
      cases h2 : slookup ar.factories source.Adapter with
      | none =>
        simp [GetAdapter, h1, h2] at h
        obtain ⟨-, hr, -⟩ := h
        subst hr; rfl
      | some factory =>
        cases h3 : factory source with
        | error err =>
          simp [GetAdapter, h1, h2, h3] at h
          obtain ⟨-, hr, -⟩ := h
          subst hr; rfl
        | ok inst =>
          cases h4 : am.connect inst source.Options with
          | some err =>
            simp [GetAdapter, h1, h2, h3, h4] at h
            obtain ⟨-, hr, -⟩ := h
            subst hr; rfl
          | none => simp [GetAdapter, h1, h2, h3, h4] at h

/-- C3 witness: a cached `db` instance is returned untouched, and for an
uncached identifier with a registered factory and succeeding connect the
instance is stored. -/
theorem GetAdapter_contract_witness :
    GetAdapter amUnit regCached srcMock "db" = (.ok (), regCached, []) ∧
    GetAdapter amUnit regFresh srcMock "db" =
      (.ok (), { regFresh with instances := sinsert regFresh.instances "db" () },
       [.createEv "db", .connectEv "db"]) :=
  ⟨(GetAdapter_contract amUnit regCached srcMock "db").1 () rfl,
   (GetAdapter_contract amUnit regFresh srcMock "db").2.2.2.1 (fun _ => .ok ()) () rfl rfl rfl rfl⟩

theorem regInv_init (a b : String) (cached : List String) :
    regInv (initConfig a b cached) := by
  simp [regInv, initConfig, lockFor, inCrit, holdsRead]

theorem regInv_step (c : RegConfig) (i : Nat) (h : regInv c) :
    regInv ((threadStep c i).getD c) := by
  obtain ⟨hl, h00, h01, h10⟩ := h
  rcases c with ⟨lock, cached, ⟨a, p0⟩, ⟨b, p1⟩⟩
  simp only at hl h00 h01 h10
  subst hl
  by_cases hi : i = 0
  · subst hi
    cases p0 <;> cases p1 <;>
      simp_all [threadStep, stepPc, lockFor, regInv, inCrit, holdsRead] <;>
      first
        | rfl
        | (split <;> simp_all [lockFor, regInv, inCrit, holdsRead])
  · cases p0 <;> cases p1 <;>
      simp_all [threadStep, stepPc, lockFor, regInv, inCrit, holdsRead, hi] <;>
      first
        | rfl
        | (split <;> simp_all [lockFor, regInv, inCrit, holdsRead])

theorem regInv_runSched (c : RegConfig) (sched : List Nat) (h : regInv c) :
    regInv (runSched c sched) := by
  induction sched generalizing c with
  | nil => simpa [runSched] using h
  | cons i rest ih =>
    simp only [runSched]
    exact ih _ (regInv_step c i h)

/-- C2 (amended): adapter creation serializes globally, not per source:
in every reachable two-call execution in which the call for source `a` is
inside `Connect`, the registry-wide write lock is held, and the
concurrent call for any other source `b` can take no step from its
read-lock or write-lock acquisition points — it is delayed until the
connect completes. -/
theorem getAdapter_serializes_globally (a b : String) (cached : List String)
    (sched : List Nat) (hab : a ≠ b)
    (hconn : (runSched (initConfig a b cached) sched).t0.pc = .connecting) :
    (runSched (initConfig a b cached) sched).lock = .wlocked ∧
    ((runSched (initConfig a b cached) sched).t1.pc = .start →
      threadStep (runSched (initConfig a b cached) sched) 1 = none) ∧
    ((runSched (initConfig a b cached) sched).t1.pc = .lockAcq →
      threadStep (runSched (initConfig a b cached) sched) 1 = none) := by
  have hinv := regInv_runSched (initConfig a b cached) sched (regInv_init a b cached)
  obtain ⟨hl, -, -, -⟩ := hinv
  rw [hconn] at hl
  have hw : (runSched (initConfig a b cached) sched).lock = .wlocked := by
    rw [hl]; simp [lockFor, inCrit]
  refine ⟨hw, ?_, ?_⟩
  · intro h1; simp [threadStep, stepPc, h1, hw]
  · intro h1; simp [threadStep, stepPc, h1, hw]

/-- C2 counterexample: a concrete reachable execution in which the
`GetAdapter` call for source `a` sits inside `Connect` while the call for
the distinct source `b` is blocked before its cache lookup: the claimed
independent-source non-blocking fails on the code, whose single
registry-wide RWMutex write lock spans the whole creation sequence. -/
theorem getAdapter_cross_source_blocking_counterexample :
    (runSched (initConfig "a" "b" []) [0, 0, 0, 0]).t0 = ⟨"a", .connecting⟩ ∧
    (runSched (initConfig "a" "b" []) [0, 0, 0, 0]).t1 = ⟨"b", .start⟩ ∧
    ("a" : String) ≠ "b" ∧
    (runSched (initConfig "a" "b" []) [0, 0, 0, 0]).lock = .wlocked ∧
    threadStep (runSched (initConfig "a" "b" []) [0, 0, 0, 0]) 1 = none :=
  ⟨rfl, rfl, by decide, rfl, rfl⟩

/-- C2 witness: the serialization theorem applied to the concrete blocked
execution. -/
theorem getAdapter_serializes_globally_witness :
    (runSched (initConfig "x" "y" []) [0, 0, 0, 0]).lock = .wlocked ∧
    ((runSched (initConfig "x" "y" []) [0, 0, 0, 0]).t1.pc = .start →
      threadStep (runSched (initConfig "x" "y" []) [0, 0, 0, 0]) 1 = none) ∧
    ((runSched (initConfig "x" "y" []) [0, 0, 0, 0]).t1.pc = .lockAcq →
      threadStep (runSched (initConfig "x" "y" []) [0, 0, 0, 0]) 1 = none) :=
  getAdapter_serializes_globally "x" "y" [] [0, 0, 0, 0] (by decide) rfl

theorem GetAdapter_events_acquisition {α : Type} (am : AdapterModel α)
    (ar : AdapterRegistry α) (source : Source) (sourceID : String) :
    ∀ ev ∈ (GetAdapter am ar source sourceID).2.2, ev.isDataOp = false := by
  cases h1 : slookup ar.instances sourceID with
  | some inst => simp [GetAdapter, h1]
  | none =>
    cases h2 : slookup ar.factories source.Adapter with
    | none => simp [GetAdapter, h1, h2]
    | some factory =>
      cases h3 : factory source with
      | error err => simp [GetAdapter, h1, h2, h3, AdapterEvent.isDataOp]
      | ok inst =>
        cases h4 : am.connect inst source.Options <;>
          simp [GetAdapter, h1, h2, h3, h4, AdapterEvent.isDataOp]

/-- C5 (amended): over an adapter returning an empty result list, the
single-result `Fetch` fails with the NotFound sentinel, and `FetchMulti`
succeeds while leaving the output argument untouched (the empty result is
not written into the output slice, which keeps its previous value). -/
theorem emptyFetch_semantics {α : Type} (lib : GoStdlib) (am : AdapterModel α)
    (mp : Mapper α) (mid : String) (params : RecordT) (outV : GoAny)
    (mapping : Mapping) (cfg : Config) (opConfig : OperationConfig)
    (source : Source) (sourceID : String) (adp : α) (reg : AdapterRegistry α)
    (evs : List AdapterEvent)
    (hm : mp.parser.GetMapping mid = .ok (mapping, cfg))
    (hop : slookup mapping.Operations "fetch" = some opConfig)
    (hrs : resolveSource cfg mapping opConfig = .ok (source, sourceID))
    (hga : GetAdapter am mp.registry source sourceID = (.ok adp, reg, evs))
    (hf1 : am.fetch adp { buildOperation .opFetch opConfig with Multi := false } params = .ok [])
    (hfM : am.fetch adp { buildOperation .opFetch opConfig with Multi := true } params = .ok []) :
    Fetch lib am mp mid params outV = (.error ErrNotFound, reg, evs ++ [.fetchEv sourceID]) ∧
    FetchMulti lib am mp mid params outV = (.ok outV, reg, evs ++ [.fetchEv sourceID]) := by
  constructor
  · simp [Fetch, hm, hop, hrs, hga, hf1]
  · cases hres : opConfig.Result <;> simp [FetchMulti, hm, hop, hrs, hga, hfM, hres]

/-- C5 counterexample: with the fixture configuration and an adapter
returning zero records, `FetchMulti` succeeds with the output slice
untouched — still the stale non-empty pointee of the caller, not a written
empty collection — refuting the claimed write of an empty collection. -/
theorem fetchMulti_untouched_counterexample :
    (FetchMulti trivLib amUnit mpCached "test.user" []
        (.ptrMapSlice [[("stale", .prim (.pStr "v"))]])).1 =
      .ok (.ptrMapSlice [[("stale", .prim (.pStr "v"))]]) ∧
    ([[("stale", .prim (.pStr "v"))]] : List RecordT) ≠ [] ∧
    (Fetch trivLib amUnit mpCached "test.user" [] (.ptrStructV (some []))).1 =
      .error ErrNotFound :=
  ⟨rfl, by simp, rfl⟩

/-- C5 witness: the amended semantics applied to the fixture
configuration with a cached adapter returning zero records. -/
theorem emptyFetch_semantics_witness :
    Fetch trivLib amUnit mpCached "test.user" [] (.ptrStructV (some [])) =
      (.error ErrNotFound, regCached, [.fetchEv "db"]) ∧
    FetchMulti trivLib amUnit mpCached "test.user" [] (.ptrStructV (some [])) =
      (.ok (.ptrStructV (some [])), regCached, [.fetchEv "db"]) :=
  emptyFetch_semantics trivLib amUnit mpCached "test.user" [] (.ptrStructV (some []))
    mapEx cfgEx opEx srcMock "db" () regCached [] rfl rfl rfl rfl rfl rfl

/-- C7 (amended): when the adapter update reports the no-matching-record
sentinel, `Update` surfaces it wrapped in the `update failed` context
error: the result matches NotFound under error unwrapping (`errors.Is`)
but is not the bare sentinel value. -/
theorem update_notfound_wrapped {α : Type} (lib : GoStdlib) (am : AdapterModel α)
    (mp : Mapper α) (mid : String) (objects : GoAny)
    (mapping : Mapping) (cfg : Config) (opConfig : OperationConfig)
    (source : Source) (sourceID : String) (adp : α) (reg : AdapterRegistry α)
    (evs : List AdapterEvent) (objSlice dataObjects : List GoAny)
    (hm : mp.parser.GetMapping mid = .ok (mapping, cfg))
    (hop : slookup mapping.Operations "update" = some opConfig)
    (hrs : resolveSource cfg mapping opConfig = .ok (source, sourceID))
    (hga : GetAdapter am mp.registry source sourceID = (.ok adp, reg, evs))
    (hts : toSlice objects = .ok objSlice)
    (hmo : mapObjects lib opConfig.Properties objSlice 0 = .ok dataObjects)
    (hup : am.update adp (buildOperation .opUpdate opConfig) dataObjects = some ErrNotFound) :
    Update lib am mp mid objects =
      (.error (.wrap "update failed: " ErrNotFound), reg, evs ++ [.updateEv sourceID]) ∧
    errorsIs (.wrap "update failed: " ErrNotFound) ErrNotFound = true ∧
    GoError.wrap "update failed: " ErrNotFound ≠ ErrNotFound := by
  refine ⟨?_, by decide, by decide⟩
  simp [Update, hm, hop, hrs, hga, hts, hmo, hup]

/-- C7 counterexample: on the fixture configuration with an adapter whose
update reports the sentinel, the `Update` verb returns the wrapped
`update failed` error, not the bare NotFound sentinel the claim states
(contrast `Fetch`, which does return the bare sentinel on zero results). -/
theorem update_notfound_counterexample :
    (Update trivLib amNF mpCached "test.user" (.structV [])).1 =
      .error (.wrap "update failed: " ErrNotFound) ∧
    (Update trivLib amNF mpCached "test.user" (.structV [])).1 ≠
      .error ErrNotFound ∧
    (Fetch trivLib amNF mpCached "test.user" [] (.ptrStructV (some []))).1 =
      .error ErrNotFound :=
  ⟨rfl,
   by
    have hval : (Update trivLib amNF mpCached "test.user" (.structV [])).1 =
        .error (.wrap "update failed: " ErrNotFound) := rfl
    rw [hval]
    simp [ErrNotFound],
   rfl⟩

/-- C7 witness: the amended statement applied to the fixture
configuration and the sentinel-reporting adapter. -/
theorem update_notfound_wrapped_witness :
    Update trivLib amNF mpCached "test.user" (.structV []) =
      (.error (.wrap "update failed: " ErrNotFound), regCached, [.updateEv "db"]) ∧
    errorsIs (.wrap "update failed: " ErrNotFound) ErrNotFound = true ∧
    GoError.wrap "update failed: " ErrNotFound ≠ ErrNotFound :=
  update_notfound_wrapped trivLib amNF mpCached "test.user" (.structV [])
    mapEx cfgEx opEx srcMock "db" () regCached [] [.structV []] [.recordV []]
    rfl rfl rfl rfl rfl rfl rfl

theorem Insert_nil_no_data_call {α : Type} (lib : GoStdlib) (am : AdapterModel α)
    (mp : Mapper α) (mid : String) :
    (∃ e, (Insert lib am mp mid .goNil).1 = .error e) ∧
    ∀ ev ∈ (Insert lib am mp mid .goNil).2.2, ev.isDataOp = false := by
  cases hm : mp.parser.GetMapping mid with
  | error e => simp [Insert, hm]
  | ok mc =>
    obtain ⟨mapping, cfg⟩ := mc
    cases hop : slookup mapping.Operations "insert" with
    | none => simp [Insert, hm, hop]
    | some opConfig =>
      cases hrs : resolveSource cfg mapping opConfig with
      | error e => simp [Insert, hm, hop, hrs]
      | ok sc =>
        obtain ⟨source, sourceID⟩ := sc
        have hev := GetAdapter_events_acquisition am mp.registry source sourceID
        rcases hga : GetAdapter am mp.registry source sourceID with ⟨res, reg, evs⟩
        rw [hga] at hev
        simp only at hev
        cases res with
        | error e =>
          constructor
          · exact ⟨.wrap "failed to get adapter: " e, by simp [Insert, hm, hop, hrs, hga]⟩
          · simpa [Insert, hm, hop, hrs, hga] using hev
        | ok adp =>
          constructor
          · exact ⟨.wrap "failed to convert objects: " (.msg "objects cannot be nil"),
              by simp [Insert, hm, hop, hrs, hga, toSlice]⟩
          · simpa [Insert, hm, hop, hrs, hga, toSlice] using hev

theorem Update_nil_no_data_call {α : Type} (lib : GoStdlib) (am : AdapterModel α)
    (mp : Mapper α) (mid : String) :
    (∃ e, (Update lib am mp mid .goNil).1 = .error e) ∧
    ∀ ev ∈ (Update lib am mp mid .goNil).2.2, ev.isDataOp = false := by
  cases hm : mp.parser.GetMapping mid with
  | error e => simp [Update, hm]
  | ok mc =>
    obtain ⟨mapping, cfg⟩ := mc
    cases hop : slookup mapping.Operations "update" with
    | none => simp [Update, hm, hop]
    | some opConfig =>
      cases hrs : resolveSource cfg mapping opConfig with
      | error e => simp [Update, hm, hop, hrs]
      | ok sc =>
        obtain ⟨source, sourceID⟩ := sc
        have hev := GetAdapter_events_acquisition am mp.registry source sourceID
        rcases hga : GetAdapter am mp.registry source sourceID with ⟨res, reg, evs⟩
        rw [hga] at hev
        simp only at hev
        cases res with
        | error e =>
          constructor
          · exact ⟨.wrap "failed to get adapter: " e, by simp [Update, hm, hop, hrs, hga]⟩
          · simpa [Update, hm, hop, hrs, hga] using hev
        | ok adp =>
          constructor
          · exact ⟨.wrap "failed to convert objects: " (.msg "objects cannot be nil"),
              by simp [Update, hm, hop, hrs, hga, toSlice]⟩
          · simpa [Update, hm, hop, hrs, hga, toSlice] using hev

theorem Delete_nil_no_data_call {α : Type} (lib : GoStdlib) (am : AdapterModel α)
    (mp : Mapper α) (mid : String) :
    (∃ e, (Delete lib am mp mid .goNil).1 = .error e) ∧
    ∀ ev ∈ (Delete lib am mp mid .goNil).2.2, ev.isDataOp = false := by
  cases hm : mp.parser.GetMapping mid with
  | error e => simp [Delete, hm]
  | ok mc =>
    obtain ⟨mapping, cfg⟩ := mc
    cases hop : slookup mapping.Operations "delete" with
    | none => simp [Delete, hm, hop]
    | some opConfig =>
      cases hrs : resolveSource cfg mapping opConfig with
      | error e => simp [Delete, hm, hop, hrs]
      | ok sc =>
        obtain ⟨source, sourceID⟩ := sc
        have hev := GetAdapter_events_acquisition am mp.registry source sourceID
        rcases hga : GetAdapter am mp.registry source sourceID with ⟨res, reg, evs⟩
        rw [hga] at hev
        simp only at hev
        cases res with
        | error e =>
          constructor
          · exact ⟨.wrap "failed to get adapter: " e, by simp [Delete, hm, hop, hrs, hga]⟩
          · simpa [Delete, hm, hop, hrs, hga] using hev
        | ok adp =>
          constructor
          · exact ⟨.wrap "failed to convert identifiers: " (.msg "objects cannot be nil"),
              by simp [Delete, hm, hop, hrs, hga, toSlice]⟩
          · simpa [Delete, hm, hop, hrs, hga, toSlice] using hev

/-- C9 (amended): input normalization at the write verbs: a nil argument
always fails with an error and the adapter data operation (insert, update
or delete) is never invoked, although mapping lookup, source resolution
and adapter acquisition — including `Connect` — run before the nil check;
`[]interface\x7b\x7d` and `[]map[string]interface\x7b\x7d` arguments are taken
element-wise; every other argument, including a typed slice, is wrapped as
a single object. -/
theorem writeVerbs_input_normalization {α : Type} (lib : GoStdlib) (am : AdapterModel α)
    (mp : Mapper α) (mid : String) :
    ((∃ e, (Insert lib am mp mid .goNil).1 = .error e) ∧
      ∀ ev ∈ (Insert lib am mp mid .goNil).2.2, ev.isDataOp = false) ∧
    ((∃ e, (Update lib am mp mid .goNil).1 = .error e) ∧
      ∀ ev ∈ (Update lib am mp mid .goNil).2.2, ev.isDataOp = false) ∧
    ((∃ e, (Delete lib am mp mid .goNil).1 = .error e) ∧
      ∀ ev ∈ (Delete lib am mp mid .goNil).2.2, ev.isDataOp = false) ∧
    toSlice .goNil = .error (.msg "objects cannot be nil") ∧
    (∀ xs, toSlice (.ifaceSlice xs) = .ok xs) ∧
    (∀ rs, toSlice (.mapSlice rs) = .ok (rs.map GoAny.recordV)) ∧
    (∀ r, toSlice (.recordV r) = .ok [.recordV r]) ∧
    (∀ v, toSlice (.valV v) = .ok [.valV v]) ∧
    (∀ s, toSlice (.structV s) = .ok [.structV s]) ∧
    (∀ s, toSlice (.ptrStructV s) = .ok [.ptrStructV s]) ∧
    (∀ rs, toSlice (.ptrMapSlice rs) = .ok [.ptrMapSlice rs]) ∧
    (∀ xs, toSlice (.typedSlice xs) = .ok [.typedSlice xs]) :=
  ⟨Insert_nil_no_data_call lib am mp mid,
   Update_nil_no_data_call lib am mp mid,
   Delete_nil_no_data_call lib am mp mid,
   rfl, fun _ => rfl, fun _ => rfl, fun _ => rfl, fun _ => rfl,
   fun _ => rfl, fun _ => rfl, fun _ => rfl, fun _ => rfl⟩

/-- C9 counterexample: with an uncached source, `Insert` of a nil
argument does fail, but only after the adapter has been constructed and
connected — the recorded trace shows a factory call and a `Connect` call
preceding the failure, refuting the claim that the nil failure precedes
any adapter call. -/
theorem insert_nil_after_adapter_calls_counterexample :
    (Insert trivLib amUnit mpFresh "test.user" .goNil).1 =
      .error (.wrap "failed to convert objects: " (.msg "objects cannot be nil")) ∧
    (Insert trivLib amUnit mpFresh "test.user" .goNil).2.2 =
      [.createEv "db", .connectEv "db"] :=
  ⟨rfl, rfl⟩

/-- C9 witness: the amended statement applied to the fixture mapper. -/
theorem writeVerbs_input_normalization_witness :
    ∃ e, (Insert trivLib amUnit mpFresh "test.user" .goNil).1 = .error e :=
  (writeVerbs_input_normalization trivLib amUnit mpFresh "test.user").1.1

theorem mapFromObjectLoop_filter (lib : GoStdlib) (s : GoStruct) (M : List PropertyMap) :
    ∀ acc, mapFromObjectLoop lib s M acc =
      mapFromObjectLoop lib s (M.filter (fun m => !m.Generated)) acc := by
  induction M with
  | nil => intro acc; rfl
  | cons m rest ih =>
    intro acc
    by_cases hg : m.Generated = true
    · simp [mapFromObjectLoop, hg, List.filter_cons, ih]
    · simp only [Bool.not_eq_true] at hg
      simp only [mapFromObjectLoop, hg, List.filter_cons, Bool.not_false, if_true,
        Bool.false_eq_true, if_false]
      cases hf : fieldByName s m.Object with
      | none => rfl
      | some f =>
        dsimp only
        cases hv : getValue lib f.val m.TypeHint with
        | error e => rfl
        | ok v => exact ih _

theorem mapFromObjectLoop_generated_keys_absent (lib : GoStdlib) (s : GoStruct) :
    ∀ (M : List PropertyMap) (acc r : RecordT) (k : String),
    (∀ m ∈ M, m.Generated = false → m.Field ≠ k) →
    mapFromObjectLoop lib s M acc = .ok r → slookup r k = slookup acc k := by
  intro M
  induction M with
  | nil =>
    intro acc r k _ h
    simp [mapFromObjectLoop] at h
    rw [← h]
  | cons m rest ih =>
    intro acc r k hk h
    by_cases hg : m.Generated = true
    · simp only [mapFromObjectLoop, hg, if_true] at h
      exact ih acc r k (fun m2 hm2 => hk m2 (List.mem_cons_of_mem m hm2)) h
    · simp only [Bool.not_eq_true] at hg
      simp only [mapFromObjectLoop, hg, Bool.false_eq_true, if_false] at h
      cases hf : fieldByName s m.Object with
      | none => rw [hf] at h; simp at h
      | some f =>
        rw [hf] at h
        dsimp only at h
        cases hv : getValue lib f.val m.TypeHint with
        | error e => rw [hv] at h; simp at h
        | ok v =>
          rw [hv] at h
          dsimp only at h
          have := ih _ r k (fun m2 hm2 => hk m2 (List.mem_cons_of_mem m hm2)) h
          rw [this, slookup_sinsert_ne _ _ _ _ (hk m (List.mem_cons_self m rest) hg)]

theorem mapToObjectLoop_generated_irrelevant (lib : GoStdlib) (data : RecordT)
    (flags : PropertyMap → Bool) :
    ∀ (M : List PropertyMap) (tgt : GoStruct),
    mapToObjectLoop lib data tgt (M.map (fun m => { m with Generated := flags m })) =
      mapToObjectLoop lib data tgt M := by
  intro M
  induction M with
  | nil => intro tgt; rfl
  | cons m rest ih =>
    intro tgt
    simp only [List.map_cons, mapToObjectLoop]
    cases hv : slookup data m.Field with
    | none => exact ih tgt
    | some dv =>
      dsimp only
      cases hf : fieldByName tgt m.Object with
      | none => rfl
      | some f =>
        dsimp only
        cases hs : setValue lib f.ty dv m.TypeHint with
        | error e => rfl
        | ok nv => exact ih _

/-- C6: a Field Mapping flagged generated never contributes to the record
produced by `MapFromObject` — the result coincides with mapping only the
non-generated mappings, and a key named solely by generated mappings is
absent — while `MapToObject` is insensitive to the generated flag, so
generated fields present in a fetched record are written back onto the
target object. -/
theorem generated_field_exclusion (lib : GoStdlib) :
    (∀ obj M, MapFromObject lib obj M =
      MapFromObject lib obj (M.filter (fun m => !m.Generated))) ∧
    (∀ s M r k, (∀ m ∈ M, m.Generated = false → m.Field ≠ k) →
      MapFromObject lib (.structV s) M = .ok r → slookup r k = none) ∧
    (∀ data target M (flags : PropertyMap → Bool),
      MapToObject lib data target (M.map (fun m => { m with Generated := flags m })) =
        MapToObject lib data target M) := by
  refine ⟨?_, ?_, ?_⟩
  · intro obj M
    cases obj <;> first
      | rfl
      | (rename_i s; cases s <;> simp [MapFromObject, mapFromObjectLoop_filter])
      | simp [MapFromObject, mapFromObjectLoop_filter]
  · intro s M r k hk h
    have := mapFromObjectLoop_generated_keys_absent lib s M [] r k hk
      (by simpa [MapFromObject] using h)
    simpa [slookup] using this
  · intro data target M flags
    cases target <;> first
      | rfl
      | (rename_i s; cases s <;> simp [MapToObject, mapToObjectLoop_generated_irrelevant])
      | simp [MapToObject, mapToObjectLoop_generated_irrelevant]

/-- C6 witness: a single generated mapping contributes nothing to the
extracted record, so its key is absent. -/
theorem generated_field_exclusion_witness :
    MapFromObject trivLib (.structV sUser)
      [{ Object := "ID", Field := "gen", TypeHint := "", Generated := true }] = .ok [] ∧
    slookup ([] : RecordT) "gen" = none :=
  ⟨rfl,
   (generated_field_exclusion trivLib).2.1 sUser
     [{ Object := "ID", Field := "gen", TypeHint := "", Generated := true }] [] "gen"
     (by decide) rfl⟩

theorem getValue_default (lib : GoStdlib) (v : GoVal) :
    getValue lib v "" = .ok (getDefault v) := by
  cases v with
  | prim p => rfl
  | ptrV b o => cases o <;> rfl
  | vNull => rfl

theorem setValue_getDefault (lib : GoStdlib) (ty : GoTy) (v : GoVal)
    (h : wellTypedVal ty v = true) : setValue lib ty (getDefault v) "" = .ok v := by
  cases ty with
  | base b =>
    cases v with
    | prim p =>
      simp only [wellTypedVal, decide_eq_true_eq] at h
      simp [getDefault, setValue, setDirect, setDirectBase, h, Except.map]
    | ptrV b2 o => simp [wellTypedVal] at h
    | vNull => simp [wellTypedVal] at h
  | ptr b =>
    cases v with
    | prim p => simp [wellTypedVal] at h
    | vNull => simp [wellTypedVal] at h
    | ptrV b2 o =>
      cases o with
      | none =>
        simp only [wellTypedVal, decide_eq_true_eq] at h
        subst h
        simp [getDefault, setValue, GoTy.zero]
      | some p =>
        simp only [wellTypedVal, decide_eq_true_eq] at h
        obtain ⟨h1, h2⟩ := h
        subst h1
        simp [getDefault, setValue, setDirect, setDirectBase, h2, Except.map]

theorem fieldByName_cons (f : GoField) (fs : GoStruct) (k : String) :
    fieldByName (f :: fs) k = if f.name = k then some f else fieldByName fs k := by
  unfold fieldByName
  rw [List.find?_cons]
  by_cases hf : f.name = k <;> simp [hf]

theorem lookupVal_cons (f : GoField) (fs : GoStruct) (k : String) :
    lookupVal (f :: fs) k = if f.name = k then some f.val else lookupVal fs k := by
  unfold lookupVal
  rw [fieldByName_cons]
  by_cases hf : f.name = k <;> simp [hf]

theorem sameShape_zeroOf (s : GoStruct) : SameShape (zeroOf s) s := by
  induction s with
  | nil => exact .nil
  | cons f fs ih => exact .cons rfl rfl ih

theorem sameShape_fieldByName {t s : GoStruct} (h : SameShape t s) (n : String) :
    ∀ f0, fieldByName s n = some f0 →
      ∃ ft, fieldByName t n = some ft ∧ ft.ty = f0.ty := by
  induction h with
  | nil => intro f0 h0; simp [fieldByName] at h0
  | @cons f g fs gs hname hty htail ih =>
    intro f0 h0
    rw [fieldByName_cons] at h0
    by_cases hn : g.name = n
    · rw [if_pos hn] at h0
      obtain rfl : g = f0 := Option.some.inj h0
      exact ⟨f, by rw [fieldByName_cons, if_pos (hname.trans hn)], hty⟩
    · rw [if_neg hn] at h0
      obtain ⟨ft, hft, hfty⟩ := ih f0 h0
      refine ⟨ft, ?_, hfty⟩
      rw [fieldByName_cons, if_neg (fun hc => hn (hname.symm.trans hc))]
      exact hft

theorem sameShape_setField {t s : GoStruct} (h : SameShape t s) (n : String) (v : GoVal) :
    SameShape (setField t n v) s := by
  induction h with
  | nil => exact .nil
  | @cons f g fs gs hname hty htail ih =>
    show SameShape ((if f.name = n then { f with val := v } else f) :: setField fs n v) (g :: gs)
    by_cases hn : f.name = n
    · rw [if_pos hn]; exact .cons hname hty ih
    · rw [if_neg hn]; exact .cons hname hty ih

theorem lookupVal_setField_self (t : GoStruct) (n : String) (v : GoVal)
    (h : (fieldByName t n).isSome) : lookupVal (setField t n v) n = some v := by
  induction t with
  | nil => simp [fieldByName] at h
  | cons f fs ih =>
    have hred : setField (f :: fs) n v =
        (if f.name = n then { f with val := v } else f) :: setField fs n v := rfl
    rw [hred]
    by_cases hn : f.name = n
    · rw [if_pos hn, lookupVal_cons]
      simp [hn]
    · rw [if_neg hn, lookupVal_cons, if_neg hn]
      rw [fieldByName_cons, if_neg hn] at h
      exact ih h

theorem lookupVal_setField_ne (t : GoStruct) (n k : String) (v : GoVal) (h : n ≠ k) :
    lookupVal (setField t n v) k = lookupVal t k := by
  induction t with
  | nil => rfl
  | cons f fs ih =>
    have hred : setField (f :: fs) n v =
        (if f.name = n then { f with val := v } else f) :: setField fs n v := rfl
    rw [hred, lookupVal_cons f fs k]
    by_cases hn : f.name = n
    · have hfk : ¬f.name = k := fun hc => h (hn ▸ hc)
      rw [if_pos hn, lookupVal_cons, if_neg hfk, if_neg hfk]
      · exact ih
    · by_cases hfk : f.name = k
      · rw [if_neg hn, lookupVal_cons, if_pos hfk, if_pos hfk]
      · rw [if_neg hn, lookupVal_cons, if_neg hfk, if_neg hfk]
        exact ih

theorem mapFromObjectLoop_roundtrip (lib : GoStdlib) (s : GoStruct) :
    ∀ (M : List PropertyMap) (acc : RecordT),
    (∀ m ∈ M, m.Generated = false ∧ m.TypeHint = "" ∧ (fieldByName s m.Object).isSome) →
    ∃ r, mapFromObjectLoop lib s M acc = .ok r ∧
      (∀ k, (∀ m ∈ M, m.Field ≠ k) → slookup r k = slookup acc k) ∧
      ((M.map PropertyMap.Field).Nodup →
        ∀ m ∈ M, ∃ f0, fieldByName s m.Object = some f0 ∧
          slookup r m.Field = some (getDefault f0.val)) := by
  intro M
  induction M with
  | nil =>
    intro acc _
    exact ⟨acc, rfl, fun k _ => rfl, fun _ m hm => absurd hm (List.not_mem_nil m)⟩
  | cons m rest ih =>
    intro acc hM
    obtain ⟨hg, hh, hex⟩ := hM m (List.mem_cons_self m rest)
    obtain ⟨f0, hf0⟩ := Option.isSome_iff_exists.mp hex
    obtain ⟨r, hr, huntouched, hnodup⟩ :=
      ih (sinsert acc m.Field (getDefault f0.val))
        (fun m2 hm2 => hM m2 (List.mem_cons_of_mem m hm2))
    refine ⟨r, ?_, ?_, ?_⟩
    · simp only [mapFromObjectLoop, hg, Bool.false_eq_true, if_false, hf0]
      rw [hh, getValue_default]
      exact hr
    · intro k hk
      rw [huntouched k (fun m2 hm2 => hk m2 (List.mem_cons_of_mem m hm2)),
        slookup_sinsert_ne _ _ _ _ (hk m (List.mem_cons_self m rest))]
    · intro hnd m2 hm2
      simp only [List.map_cons, List.nodup_cons] at hnd
      obtain ⟨hnotmem, hndrest⟩ := hnd
      rcases List.mem_cons.mp hm2 with heq | hmem
      · subst heq
        refine ⟨f0, hf0, ?_⟩
        have : ∀ m3 ∈ rest, m3.Field ≠ m2.Field := by
          intro m3 hm3 hcontra
          exact hnotmem (hcontra ▸ List.mem_map_of_mem PropertyMap.Field hm3)
        rw [huntouched m2.Field this, slookup_sinsert_self]
      · exact hnodup hndrest m2 hmem

theorem mapToObjectLoop_roundtrip (lib : GoStdlib) (s0 : GoStruct) (r : RecordT) :
    ∀ (M : List PropertyMap),
    (∀ m ∈ M, m.TypeHint = "" ∧ ∃ f0, fieldByName s0 m.Object = some f0 ∧
      wellTypedVal f0.ty f0.val = true ∧ slookup r m.Field = some (getDefault f0.val)) →
    ∀ t, SameShape t s0 →
    ∃ s1, mapToObjectLoop lib r t M = .ok s1 ∧ SameShape s1 s0 ∧
      (∀ m ∈ M, lookupVal s1 m.Object = lookupVal s0 m.Object) ∧
      (∀ k, (∀ m ∈ M, m.Object ≠ k) → lookupVal s1 k = lookupVal t k) := by
  intro M
  induction M with
  | nil =>
    intro _ t ht
    exact ⟨t, rfl, ht, fun m hm => absurd hm (List.not_mem_nil m), fun k _ => rfl⟩
  | cons m rest ih =>
    intro hM t ht
    obtain ⟨hh, f0, hf0, hwt, hrk⟩ := hM m (List.mem_cons_self m rest)
    obtain ⟨ft, hft, hftty⟩ := sameShape_fieldByName ht m.Object f0 hf0
    have hset : setValue lib ft.ty (getDefault f0.val) "" = .ok f0.val := by
      rw [hftty]; exact setValue_getDefault lib f0.ty f0.val hwt
    obtain ⟨s1, hs1, hshape, hmapped, huntouched⟩ :=
      ih (fun m2 hm2 => hM m2 (List.mem_cons_of_mem m hm2))
        (setField t m.Object f0.val) (sameShape_setField ht m.Object f0.val)
    refine ⟨s1, ?_, hshape, ?_, ?_⟩
    · simp only [mapToObjectLoop, hrk]
      rw [hft, hh]
      show (match setValue lib ft.ty (getDefault f0.val) "" with
        | Except.error e =>
          Except.error (GoError.wrap ("failed to set field " ++ m.Object ++ ": ") e)
        | Except.ok nv => mapToObjectLoop lib r (setField t m.Object nv) rest) =
        Except.ok s1
      rw [hset]
      exact hs1
    · intro m2 hm2
      rcases List.mem_cons.mp hm2 with heq | hmem
      · subst heq
        by_cases hrepeat : ∃ m3 ∈ rest, m3.Object = m2.Object
        · obtain ⟨m3, hm3, hm3eq⟩ := hrepeat
          rw [← hm3eq]
          exact hmapped m3 hm3
        · push_neg at hrepeat
          rw [huntouched m2.Object hrepeat,
            lookupVal_setField_self t m2.Object f0.val (by rw [hft]; rfl)]
          simp [lookupVal, hf0]
      · exact hmapped m2 hmem
    · intro k hk
      rw [huntouched k (fun m2 hm2 => hk m2 (List.mem_cons_of_mem m hm2)),
        lookupVal_setField_ne t m.Object k f0.val (hk m (List.mem_cons_self m rest))]

/-- C1 (amended): round-trip of the property mapper: for a well-typed
domain struct and a mapping set whose mappings are non-generated, carry
the default (lossless) type hint, name existing object fields, and have
pairwise-distinct record field names, mapping the object to a record with
`MapFromObject` and back into a fresh zero value with `MapToObject`
reproduces the object on every mapped field. -/
theorem mapper_round_trip (lib : GoStdlib) (s0 : GoStruct) (M : List PropertyMap)
    (hwt : wellTypedStruct s0 = true)
    (hM : ∀ m ∈ M, m.Generated = false ∧ m.TypeHint = "" ∧ (fieldByName s0 m.Object).isSome)
    (hND : (M.map PropertyMap.Field).Nodup) :
    ∃ r s1, MapFromObject lib (.structV s0) M = .ok r ∧
      MapToObject lib r (.ptrStructV (some (zeroOf s0))) M = .ok s1 ∧
      ∀ m ∈ M, lookupVal s1 m.Object = lookupVal s0 m.Object := by
  obtain ⟨r, hr, -, hvals⟩ := mapFromObjectLoop_roundtrip lib s0 M [] hM
  have hvals2 := hvals hND
  have hto : ∀ m ∈ M, m.TypeHint = "" ∧ ∃ f0, fieldByName s0 m.Object = some f0 ∧
      wellTypedVal f0.ty f0.val = true ∧ slookup r m.Field = some (getDefault f0.val) := by
    intro m hm
    obtain ⟨-, hh, -⟩ := hM m hm
    obtain ⟨f0, hf0, hrf⟩ := hvals2 m hm
    refine ⟨hh, f0, hf0, ?_, hrf⟩
    have hmem : f0 ∈ s0 := List.mem_of_find?_eq_some hf0
    exact List.all_eq_true.mp hwt f0 hmem
  obtain ⟨s1, hs1, -, hmapped, -⟩ :=
    mapToObjectLoop_roundtrip lib s0 r M hto (zeroOf s0) (sameShape_zeroOf s0)
  exact ⟨r, s1, hr, hs1, hmapped⟩

/-- C1 counterexample: two non-generated default-hint mappings naming
existing fields but sharing the record field `x` satisfy every hypothesis
of the claim, yet the round trip rebuilds field `A` from the value of
field `B`: the claim fails without distinct record field names. -/
theorem round_trip_counterexample :
    (∀ m ∈ mDup, m.Generated = false ∧ m.TypeHint = "" ∧ (fieldByName sAB m.Object).isSome) ∧
    wellTypedStruct sAB = true ∧
    MapFromObject trivLib (.structV sAB) mDup = .ok [("x", .prim (.pInt 2))] ∧
    MapToObject trivLib [("x", .prim (.pInt 2))] (.ptrStructV (some (zeroOf sAB))) mDup =
      .ok [{ name := "A", ty := .base .bInt, val := .prim (.pInt 2) },
           { name := "B", ty := .base .bInt, val := .prim (.pInt 2) }] ∧
    lookupVal [{ name := "A", ty := .base .bInt, val := .prim (.pInt 2) },
               { name := "B", ty := .base .bInt, val := .prim (.pInt 2) }] "A" ≠
      lookupVal sAB "A" :=
  ⟨by decide, by decide, rfl, rfl, by decide⟩

/-- C1 witness: the amended round trip on a concrete two-field struct
with a plain string field and a pointer field. -/
theorem mapper_round_trip_witness :
    (∀ m ∈ mUser, m.Generated = false ∧ m.TypeHint = "" ∧
      (fieldByName sUser m.Object).isSome) ∧
    ∃ r s1, MapFromObject trivLib (.structV sUser) mUser = .ok r ∧
      MapToObject trivLib r (.ptrStructV (some (zeroOf sUser))) mUser = .ok s1 ∧
      ∀ m ∈ mUser, lookupVal s1 m.Object = lookupVal sUser m.Object :=
  ⟨by decide, mapper_round_trip trivLib sUser mUser (by decide) (by decide) (by decide)⟩

end Datamapper
